import Mathlib

/-!
Shallow embedding of `src/ape/kinetics.py` (the APE `KineticsJob` class)
and proofs about it.  Machine floats are modelled by exact rationals;
the external collaborators (`calculate_tst_rate_coefficient`,
`get_equilibrium_constant`, `quantity.Units(...).get_conversion_factor_from_si`,
`Arrhenius().fit_to_data`) are oracle function parameters.
-/

/-- A conformer as read by the kinetics module: only its zero-point
electronic energy `E0` (SI value, J/mol) is consulted. -/
structure Conformer where
  E0 : ℚ
  deriving DecidableEq

/-- A species as read by the kinetics module. -/
structure Species where
  conformer : Conformer
  deriving DecidableEq

/-- The tunneling models dispatched on in `generate_kinetics`
(lines 112-127): `Wigner`, `Eckart`, or some other model class.
Fields mirror the attributes the code reads or writes; `none` stands
for Python `None` in an attribute. -/
inductive TunnelingModel where
  | wigner (frequency : Option ℚ)
  | eckart (frequency : Option ℚ) (E0_reac E0_TS E0_prod : Option ℚ)
  | other (frequency : Option ℚ)
  deriving DecidableEq

/-- The `frequency` attribute common to all tunneling model classes. -/
def TunnelingModel.frequency : TunnelingModel → Option ℚ
  | .wigner f => f
  | .eckart f _ _ _ => f
  | .other f => f

/-- The transition state as read by the kinetics module: its `tunneling`
attribute (Python `None` modelled by `none`), its `frequency.value_si`
(cm^-1) and its conformer. -/
structure TransitionState where
  tunneling : Option TunnelingModel
  frequency : ℚ
  conformer : Conformer
  deriving DecidableEq

/-- The reaction as read by the kinetics module. -/
structure Reaction where
  reactants : List Species
  products : List Species
  transition_state : TransitionState
  deriving DecidableEq

/-- The exceptions the kinetics code can raise.  `unsupportedMolecularity`
and `unsupportedStoichiometry` model the `KeyError` raised by the dict
lookups on lines 130-133 (named `UnsupportedMolecularityError` and
`UnsupportedStoichiometryError` in the design document);
`unknownTunneling` models the `ValueError` of line 127. -/
inductive KineticsError where
  | unsupportedMolecularity
  | unsupportedStoichiometry
  | unknownTunneling
  deriving DecidableEq

/-- Line 36: `self.Tcount = Tcount if Tcount > 3 else 50`. -/
def effTcount (Tcount : ℤ) : ℤ :=
  if Tcount > 3 then Tcount else 50

/-- `numpy.linspace start stop num` with the default `endpoint=True`:
`num` samples `start + i * (stop - start) / (num - 1)`, exact in ℚ. -/
def linspace (start stop : ℚ) (num : ℕ) : List ℚ :=
  (List.range num).map (fun (i : ℕ) => start + (i : ℚ) * ((stop - start) / ((num : ℚ) - 1)))

/-- Line 45: `1 / np.linspace(1 / Tmax, 1 / Tmin, Tcount)`,
the generated temperature grid. -/
def Tgrid (Tmin Tmax : ℚ) (Tcount : ℕ) : List ℚ :=
  (linspace (1 / Tmax) (1 / Tmin) Tcount).map (fun x => 1 / x)

/-- Lines 197-204 of `write_output`: the reverse-rate sample lists
`(k0_revs, k_revs)`.  The loop `for n, T in enumerate(t_list)` reads
`self.k_list[i]`, `self.k0_list[i]`, `self.Keq_list[i]` where `i` is the
variable left over from the earlier printing loop of line 184, so it
holds the final index `len(t_list) - 1` throughout. -/
def reverse_rate_samples (t_list k0_list k_list Keq_list : List ℚ) :
    List ℚ × List ℚ :=
  let i := t_list.length - 1
  (t_list.map (fun _ => k0_list.getD i 0 / Keq_list.getD i 0),
   t_list.map (fun _ => k_list.getD i 0 / Keq_list.getD i 0))

/-- Lines 197-214 of `write_output`: compute the reverse-rate samples and
apply the Arrhenius fit (oracle `fit`, taking the temperature list and the
rate list) to both.  The Python performs no check on `Keq` here and this
region raises no exception: NumPy float division by zero emits a warning
and yields `inf`/`nan` (the junk value itself is outside the rational
model), and both fits are attempted unconditionally. -/
def write_output_reverse (fit : List ℚ → List ℚ → ℚ)
    (t_list k0_list k_list Keq_list : List ℚ) :
    Except KineticsError (ℚ × ℚ) :=
  let p := reverse_rate_samples t_list k0_list k_list Keq_list
  Except.ok (fit t_list p.1, fit t_list p.2)

/-- Lines 112-127 of `generate_kinetics`: fill in missing tunneling-model
parameters from the transition state and the species, accept a
user-supplied frequency unchanged, and raise `ValueError` for any other
model with no frequency.  Returns the reaction's tunneling attribute
after the (in-place, here modelled functionally) mutation.  The constant
`0.001` converts J/mol to kJ/mol as in the source. -/
def resolveTunneling (rxn : Reaction) : Except KineticsError (Option TunnelingModel) :=
  match rxn.transition_state.tunneling with
  | some (TunnelingModel.wigner none) =>
      Except.ok (some (TunnelingModel.wigner (some rxn.transition_state.frequency)))
  | some (TunnelingModel.eckart none _ _ _) =>
      Except.ok (some (TunnelingModel.eckart (some rxn.transition_state.frequency)
        (some ((rxn.reactants.map (fun r => r.conformer.E0)).sum * 0.001))
        (some (rxn.transition_state.conformer.E0 * 0.001))
        (some ((rxn.products.map (fun p => p.conformer.E0)).sum * 0.001))))
  | some t =>
      if (TunnelingModel.frequency t).isSome then Except.ok (some t)
      else Except.error KineticsError.unknownTunneling
  | none => Except.ok none

/-- Line 130: `{1: 's^-1', 2: 'cm^3/(mol*s)', 3: 'cm^6/(mol^2*s)'}[order]`;
`none` models the `KeyError` raised for any other key. -/
def k_units_map : ℕ → Option String
  | 1 => some "s^-1"
  | 2 => some "cm^3/(mol*s)"
  | 3 => some "cm^6/(mol^2*s)"
  | _ => none

/-- Lines 131-132: the `K_eq` units dict keyed on
`len(products) - len(reactants)`; `none` models the `KeyError`. -/
def K_eq_units_map (delta : ℤ) : Option String :=
  if delta = 2 then some "mol^2/cm^6"
  else if delta = 1 then some "mol/cm^3"
  else if delta = 0 then some "       "
  else if delta = -1 then some "cm^3/mol"
  else if delta = -2 then some "cm^6/mol^2"
  else none

/-- Lines 136-139: the unit converter for the equilibrium constant, an
oracle call for any unit tag other than the blank (dimensionless) one. -/
def keq_unit_converter (convOfUnits : String → ℚ) (K_eq_units : String) : ℚ :=
  if K_eq_units ≠ "       " then convOfUnits K_eq_units else 1

/-- One per-temperature sample row: `k0`, `k`, `kappa`, `Keq`
(lines 143-157). -/
structure RateSample where
  k0 : ℚ
  k : ℚ
  kappa : ℚ
  Keq : ℚ
  deriving DecidableEq

/-- The transition state after one loop iteration together with the
computed rates. -/
structure StepResult where
  ts : TransitionState
  k0 : ℚ
  k : ℚ
  kappa : ℚ
  deriving DecidableEq

/-- Lines 148-155, one iteration of the rate loop: save the tunneling
model, null it out, evaluate the TST rate (`rate` is the oracle for
`calculate_tst_rate_coefficient`, reading the whole transition state),
restore the model, evaluate again, and form `kappa = k / k0`. -/
def rateStep (rate : TransitionState → ℚ → ℚ) (factor : ℚ)
    (ts : TransitionState) (T : ℚ) : StepResult :=
  let tunneling := ts.tunneling
  let ts1 : TransitionState := { ts with tunneling := none }
  let k0 := rate ts1 T * factor
  let ts2 : TransitionState := { ts1 with tunneling := tunneling }
  let k := rate ts2 T * factor
  { ts := ts2, k0 := k0, k := k, kappa := k / k0 }

/-- Lines 147-157: the full loop over the temperature list, threading the
transition state through the iterations and recording each sample row.
`keqSI` is the oracle for `get_equilibrium_constant` and `conv` the
pre-computed `keq_unit_converter` value. -/
def rateLoop (rate : TransitionState → ℚ → ℚ) (keqSI : ℚ → ℚ)
    (factor conv : ℚ) : TransitionState → List ℚ → TransitionState × List RateSample
  | ts, [] => (ts, [])
  | ts, T :: Ts =>
    let s := rateStep rate factor ts T
    let rest := rateLoop rate keqSI factor conv s.ts Ts
    (rest.1, { k0 := s.k0, k := s.k, kappa := s.kappa, Keq := conv * keqSI T } :: rest.2)

/-- The fields of the job populated by `generate_kinetics`. -/
structure KineticsResult where
  tunneling : Option TunnelingModel
  ts : TransitionState
  k_units : String
  K_eq_units : String
  k_r_units : String
  samples : List RateSample
  deriving DecidableEq

/-- Lines 105-160, `generate_kinetics`: resolve the tunneling model, look
up the three unit tags (a failed dict lookup raises `KeyError`), build the
conversion factors, and run the rate loop.  The Arrhenius fit of line 159
consumes `k_list` afterwards and adds no information to the samples. -/
def generate_kinetics (rate : TransitionState → ℚ → ℚ) (keqSI : ℚ → ℚ)
    (convOfUnits : String → ℚ) (rxn : Reaction) (Tlist : List ℚ) :
    Except KineticsError KineticsResult :=
  match resolveTunneling rxn with
  | Except.error e => Except.error e
  | Except.ok tun =>
    match k_units_map rxn.reactants.length with
    | none => Except.error KineticsError.unsupportedMolecularity
    | some k_units =>
      match K_eq_units_map ((rxn.products.length : ℤ) - (rxn.reactants.length : ℤ)) with
      | none => Except.error KineticsError.unsupportedStoichiometry
      | some K_eq_units =>
        match k_units_map rxn.products.length with
        | none => Except.error KineticsError.unsupportedMolecularity
        | some k_r_units =>
          let conv := keq_unit_converter convOfUnits K_eq_units
          let factor : ℚ := (1000000 : ℚ) ^ (rxn.reactants.length - 1)
          let ts0 : TransitionState := { rxn.transition_state with tunneling := tun }
          let r := rateLoop rate keqSI factor conv ts0 Tlist
          Except.ok { tunneling := tun, ts := r.1, k_units := k_units,
                      K_eq_units := K_eq_units, k_r_units := k_r_units, samples := r.2 }

/-- The sample row the loop body produces at temperature `T` when the
transition state entering the iteration is `ts`. -/
def sampleAt (rate : TransitionState → ℚ → ℚ) (keqSI : ℚ → ℚ) (factor conv : ℚ)
    (ts : TransitionState) (T : ℚ) : RateSample :=
  { k0 := rate { ts with tunneling := none } T * factor,
    k := rate ts T * factor,
    kappa := rate ts T * factor / (rate { ts with tunneling := none } T * factor),
    Keq := conv * keqSI T }

/-- The `i`-th inverse-temperature sample underlying the generated grid:
`Tgrid` is the pointwise reciprocal of these. -/
def invPoint (Tmin Tmax : ℚ) (n i : ℕ) : ℚ :=
  1 / Tmax + (i : ℚ) * ((1 / Tmin - 1 / Tmax) / ((n : ℚ) - 1))

/-- Concrete instances used to exercise the definitions. -/
def exSpecies : Species := { conformer := { E0 := 4000 } }

def exTS : TransitionState := { tunneling := none, frequency := 1500, conformer := { E0 := 9000 } }

/-- A unimolecular reaction `A -> B` with no tunneling model. -/
def exRxn1 : Reaction :=
  { reactants := [exSpecies], products := [exSpecies], transition_state := exTS }

/-- A reaction with four reactants (molecularity outside 1..3). -/
def exRxn4 : Reaction :=
  { reactants := [exSpecies, exSpecies, exSpecies, exSpecies],
    products := [exSpecies], transition_state := exTS }

/-- A reaction with net molecularity change +3 (outside -2..2). -/
def exRxnD3 : Reaction :=
  { reactants := [exSpecies],
    products := [exSpecies, exSpecies, exSpecies, exSpecies],
    transition_state := exTS }

def exTSEck : TransitionState :=
  { tunneling := some (TunnelingModel.eckart none none none none),
    frequency := 1500, conformer := { E0 := 9000 } }

/-- A reaction carrying an Eckart tunneling model with no frequency. -/
def exRxnEck : Reaction :=
  { reactants := [exSpecies, exSpecies], products := [exSpecies],
    transition_state := exTSEck }

/-- A constant TST-rate oracle. -/
def exRate : TransitionState → ℚ → ℚ := fun _ _ => 2

/-- A constant equilibrium-constant oracle. -/
def exKeqSI : ℚ → ℚ := fun _ => 5

/-- A trivial unit-conversion oracle. -/
def exConv : String → ℚ := fun _ => 1

/-- The result of `generate_kinetics exRate exKeqSI exConv exRxn1 [300]`. -/
def exRes : KineticsResult :=
  { tunneling := none, ts := exTS, k_units := "s^-1", K_eq_units := "       ",
    k_r_units := "s^-1", samples := [{ k0 := 2, k := 2, kappa := 1, Keq := 5 }] }

theorem rateStep_ts (rate : TransitionState → ℚ → ℚ) (factor : ℚ)
    (ts : TransitionState) (T : ℚ) : (rateStep rate factor ts T).ts = ts := rfl

theorem rateStep_k0 (rate : TransitionState → ℚ → ℚ) (factor : ℚ)
    (ts : TransitionState) (T : ℚ) :
    (rateStep rate factor ts T).k0 = rate { ts with tunneling := none } T * factor := rfl

theorem rateStep_k (rate : TransitionState → ℚ → ℚ) (factor : ℚ)
    (ts : TransitionState) (T : ℚ) :
    (rateStep rate factor ts T).k = rate ts T * factor := rfl

theorem rateStep_kappa (rate : TransitionState → ℚ → ℚ) (factor : ℚ)
    (ts : TransitionState) (T : ℚ) :
    (rateStep rate factor ts T).kappa
      = rate ts T * factor / (rate { ts with tunneling := none } T * factor) := rfl

/-- Closed form of the rate loop: the transition state comes out exactly
as it went in (each iteration restores it), and the sample rows are the
pointwise image of the temperature list. -/
theorem rateLoop_eq (rate : TransitionState → ℚ → ℚ) (keqSI : ℚ → ℚ)
    (factor conv : ℚ) (ts : TransitionState) (Ts : List ℚ) :
    rateLoop rate keqSI factor conv ts Ts
      = (ts, Ts.map (sampleAt rate keqSI factor conv ts)) := by
  induction Ts with
  | nil => rfl
  | cons T Ts ih =>
    simp only [rateLoop, rateStep_ts, rateStep_k0, rateStep_k, rateStep_kappa, ih,
      sampleAt, List.map_cons]

theorem generate_kinetics_eq_ok (rate : TransitionState → ℚ → ℚ) (keqSI : ℚ → ℚ)
    (convOfUnits : String → ℚ) (rxn : Reaction) (Tlist : List ℚ)
    (tun : Option TunnelingModel) (ku keu kru : String)
    (h1 : resolveTunneling rxn = Except.ok tun)
    (h2 : k_units_map rxn.reactants.length = some ku)
    (h3 : K_eq_units_map ((rxn.products.length : ℤ) - (rxn.reactants.length : ℤ)) = some keu)
    (h4 : k_units_map rxn.products.length = some kru) :
    generate_kinetics rate keqSI convOfUnits rxn Tlist
      = Except.ok
          { tunneling := tun,
            ts := { rxn.transition_state with tunneling := tun },
            k_units := ku, K_eq_units := keu, k_r_units := kru,
            samples := Tlist.map (sampleAt rate keqSI
              ((1000000 : ℚ) ^ (rxn.reactants.length - 1))
              (keq_unit_converter convOfUnits keu)
              { rxn.transition_state with tunneling := tun }) } := by
  unfold generate_kinetics
  simp only [h1, h2, h3, h4, rateLoop_eq]

theorem generate_kinetics_reac_molecularity_error (rate : TransitionState → ℚ → ℚ)
    (keqSI : ℚ → ℚ) (convOfUnits : String → ℚ) (rxn : Reaction) (Tlist : List ℚ)
    (tun : Option TunnelingModel)
    (h1 : resolveTunneling rxn = Except.ok tun)
    (h2 : k_units_map rxn.reactants.length = none) :
    generate_kinetics rate keqSI convOfUnits rxn Tlist
      = Except.error KineticsError.unsupportedMolecularity := by
  unfold generate_kinetics
  simp only [h1, h2]

theorem generate_kinetics_stoichiometry_error (rate : TransitionState → ℚ → ℚ)
    (keqSI : ℚ → ℚ) (convOfUnits : String → ℚ) (rxn : Reaction) (Tlist : List ℚ)
    (tun : Option TunnelingModel) (ku : String)
    (h1 : resolveTunneling rxn = Except.ok tun)
    (h2 : k_units_map rxn.reactants.length = some ku)
    (h3 : K_eq_units_map ((rxn.products.length : ℤ) - (rxn.reactants.length : ℤ)) = none) :
    generate_kinetics rate keqSI convOfUnits rxn Tlist
      = Except.error KineticsError.unsupportedStoichiometry := by
  unfold generate_kinetics
  simp only [h1, h2, h3]

theorem generate_kinetics_resolve_error (rate : TransitionState → ℚ → ℚ)
    (keqSI : ℚ → ℚ) (convOfUnits : String → ℚ) (rxn : Reaction) (Tlist : List ℚ)
    (e : KineticsError) (h1 : resolveTunneling rxn = Except.error e) :
    generate_kinetics rate keqSI convOfUnits rxn Tlist = Except.error e := by
  unfold generate_kinetics
  simp only [h1]

theorem generate_kinetics_prod_molecularity_error (rate : TransitionState → ℚ → ℚ)
    (keqSI : ℚ → ℚ) (convOfUnits : String → ℚ) (rxn : Reaction) (Tlist : List ℚ)
    (tun : Option TunnelingModel) (ku keu : String)
    (h1 : resolveTunneling rxn = Except.ok tun)
    (h2 : k_units_map rxn.reactants.length = some ku)
    (h3 : K_eq_units_map ((rxn.products.length : ℤ) - (rxn.reactants.length : ℤ)) = some keu)
    (h4 : k_units_map rxn.products.length = none) :
    generate_kinetics rate keqSI convOfUnits rxn Tlist
      = Except.error KineticsError.unsupportedMolecularity := by
  unfold generate_kinetics
  simp only [h1, h2, h3, h4]

/-- Inversion: a successful `generate_kinetics` run determines every field
of the result. -/
theorem generate_kinetics_ok_inv (rate : TransitionState → ℚ → ℚ) (keqSI : ℚ → ℚ)
    (convOfUnits : String → ℚ) (rxn : Reaction) (Tlist : List ℚ) (res : KineticsResult)
    (h : generate_kinetics rate keqSI convOfUnits rxn Tlist = Except.ok res) :
    resolveTunneling rxn = Except.ok res.tunneling ∧
    k_units_map rxn.reactants.length = some res.k_units ∧
    K_eq_units_map ((rxn.products.length : ℤ) - (rxn.reactants.length : ℤ))
      = some res.K_eq_units ∧
    k_units_map rxn.products.length = some res.k_r_units ∧
    res.ts = { rxn.transition_state with tunneling := res.tunneling } ∧
    res.samples = Tlist.map (sampleAt rate keqSI
      ((1000000 : ℚ) ^ (rxn.reactants.length - 1))
      (keq_unit_converter convOfUnits res.K_eq_units)
      { rxn.transition_state with tunneling := res.tunneling }) := by
  cases h1 : resolveTunneling rxn with
  | error e =>
    rw [generate_kinetics_resolve_error rate keqSI convOfUnits rxn Tlist e h1] at h
    exact absurd h (by simp)
  | ok tun =>
    cases h2 : k_units_map rxn.reactants.length with
    | none =>
      rw [generate_kinetics_reac_molecularity_error rate keqSI convOfUnits rxn Tlist
        tun h1 h2] at h
      exact absurd h (by simp)
    | some ku =>
      cases h3 : K_eq_units_map ((rxn.products.length : ℤ) - (rxn.reactants.length : ℤ)) with
      | none =>
        rw [generate_kinetics_stoichiometry_error rate keqSI convOfUnits rxn Tlist
          tun ku h1 h2 h3] at h
        exact absurd h (by simp)
      | some keu =>
        cases h4 : k_units_map rxn.products.length with
        | none =>
          rw [generate_kinetics_prod_molecularity_error rate keqSI convOfUnits rxn Tlist
            tun ku keu h1 h2 h3 h4] at h
          exact absurd h (by simp)
        | some kru =>
          rw [generate_kinetics_eq_ok rate keqSI convOfUnits rxn Tlist
            tun ku keu kru h1 h2 h3 h4] at h
          obtain rfl : res = _ := (Except.ok.inj h).symm
          exact ⟨rfl, rfl, rfl, rfl, rfl, rfl⟩

theorem Tgrid_length (Tmin Tmax : ℚ) (n : ℕ) : (Tgrid Tmin Tmax n).length = n := by
  unfold Tgrid linspace
  rw [List.length_map, List.length_map, List.length_range]

theorem Tgrid_getD (Tmin Tmax : ℚ) (n i : ℕ) (hi : i < n) :
    (Tgrid Tmin Tmax n).getD i 0 = 1 / invPoint Tmin Tmax n i := by
  unfold Tgrid linspace invPoint
  rw [List.getD_eq_getElem?_getD, List.getElem?_map, List.getElem?_map,
    List.getElem?_range hi]
  rfl

theorem Tgrid_mem (Tmin Tmax : ℚ) (n : ℕ) (x : ℚ) (hx : x ∈ Tgrid Tmin Tmax n) :
    ∃ i, i < n ∧ x = 1 / invPoint Tmin Tmax n i := by
  unfold Tgrid linspace at hx
  rw [List.mem_map] at hx
  obtain ⟨y, hy, rfl⟩ := hx
  rw [List.mem_map] at hy
  obtain ⟨i, hi, rfl⟩ := hy
  exact ⟨i, List.mem_range.mp hi, rfl⟩

theorem invPoint_bounds (Tmin Tmax : ℚ) (n i : ℕ) (h0 : 0 < Tmin) (h1 : Tmin < Tmax)
    (hn : 2 ≤ n) (hi : i < n) :
    1 / Tmax ≤ invPoint Tmin Tmax n i ∧ invPoint Tmin Tmax n i ≤ 1 / Tmin := by
  have huv : 1 / Tmax < 1 / Tmin := one_div_lt_one_div_of_lt h0 h1
  have hm : (0 : ℚ) < (n : ℚ) - 1 := by
    have : (2 : ℚ) ≤ (n : ℚ) := by exact_mod_cast hn
    linarith
  have hs : 0 ≤ (1 / Tmin - 1 / Tmax) / ((n : ℚ) - 1) :=
    div_nonneg (by linarith) hm.le
  constructor
  · have : 0 ≤ (i : ℚ) * ((1 / Tmin - 1 / Tmax) / ((n : ℚ) - 1)) :=
      mul_nonneg (Nat.cast_nonneg i) hs
    simp only [invPoint]
    linarith
  · have hicast : (i : ℚ) ≤ (n : ℚ) - 1 := by
      have : ((i : ℚ) + 1) ≤ (n : ℚ) := by exact_mod_cast Nat.succ_le_of_lt hi
      linarith
    have hmul : (i : ℚ) * ((1 / Tmin - 1 / Tmax) / ((n : ℚ) - 1))
        ≤ ((n : ℚ) - 1) * ((1 / Tmin - 1 / Tmax) / ((n : ℚ) - 1)) :=
      mul_le_mul_of_nonneg_right hicast hs
    have hcancel : ((n : ℚ) - 1) * ((1 / Tmin - 1 / Tmax) / ((n : ℚ) - 1))
        = 1 / Tmin - 1 / Tmax := mul_div_cancel₀ _ hm.ne'
    simp only [invPoint]
    linarith

theorem invPoint_pos (Tmin Tmax : ℚ) (n i : ℕ) (h0 : 0 < Tmin) (h1 : Tmin < Tmax)
    (hn : 2 ≤ n) (hi : i < n) : 0 < invPoint Tmin Tmax n i := by
  have hu : 0 < 1 / Tmax := one_div_pos.mpr (h0.trans h1)
  exact hu.trans_le (invPoint_bounds Tmin Tmax n i h0 h1 hn hi).1

theorem invPoint_zero (Tmin Tmax : ℚ) (n : ℕ) : invPoint Tmin Tmax n 0 = 1 / Tmax := by
  simp [invPoint]

theorem invPoint_last (Tmin Tmax : ℚ) (n : ℕ) (hn : 2 ≤ n) :
    invPoint Tmin Tmax n (n - 1) = 1 / Tmin := by
  have hm : (0 : ℚ) < (n : ℚ) - 1 := by
    have : (2 : ℚ) ≤ (n : ℚ) := by exact_mod_cast hn
    linarith
  have hcast : ((n - 1 : ℕ) : ℚ) = (n : ℚ) - 1 := by
    rw [Nat.cast_sub (by omega)]
    norm_num
  simp only [invPoint, hcast, mul_div_cancel₀ _ hm.ne']
  ring

theorem invPoint_succ_lt (Tmin Tmax : ℚ) (n i : ℕ) (h0 : 0 < Tmin) (h1 : Tmin < Tmax)
    (hn : 2 ≤ n) : invPoint Tmin Tmax n i < invPoint Tmin Tmax n (i + 1) := by
  have huv : 1 / Tmax < 1 / Tmin := one_div_lt_one_div_of_lt h0 h1
  have hm : (0 : ℚ) < (n : ℚ) - 1 := by
    have : (2 : ℚ) ≤ (n : ℚ) := by exact_mod_cast hn
    linarith
  have hs : 0 < (1 / Tmin - 1 / Tmax) / ((n : ℚ) - 1) := div_pos (by linarith) hm
  simp only [invPoint]
  push_cast
  nlinarith

theorem invPoint_succ_sub (Tmin Tmax : ℚ) (n i : ℕ) :
    invPoint Tmin Tmax n (i + 1) - invPoint Tmin Tmax n i
      = (1 / Tmin - 1 / Tmax) / ((n : ℚ) - 1) := by
  simp only [invPoint]
  push_cast
  ring

/-- C4: with no explicit temperature list, the generated grid has exactly
`Tcount` points, the reciprocals of consecutive points differ by the
constant step `(1/Tmin - 1/Tmax)/(Tcount - 1)` (uniform `1/T` spacing
between `1/Tmax` and `1/Tmin`), every point lies in `[Tmin, Tmax]`, and
the extreme values `Tmax` and `Tmin` are attained (at the first and last
position), so the grid's minimum is `Tmin` and its maximum is `Tmax`
(lines 44-45; exact rational arithmetic in place of floating point). -/
theorem tgrid_uniform_inverse_spec (Tmin Tmax : ℚ) (n : ℕ)
    (h0 : 0 < Tmin) (h1 : Tmin < Tmax) (hn : 2 ≤ n) :
    (Tgrid Tmin Tmax n).length = n ∧
    (∀ i, i + 1 < n →
      1 / (Tgrid Tmin Tmax n).getD (i + 1) 0 - 1 / (Tgrid Tmin Tmax n).getD i 0
        = (1 / Tmin - 1 / Tmax) / ((n : ℚ) - 1)) ∧
    (∀ x ∈ Tgrid Tmin Tmax n, Tmin ≤ x ∧ x ≤ Tmax) ∧
    (Tgrid Tmin Tmax n).getD 0 0 = Tmax ∧
    (Tgrid Tmin Tmax n).getD (n - 1) 0 = Tmin := by
  refine ⟨Tgrid_length Tmin Tmax n, ?_, ?_, ?_, ?_⟩
  · intro i hi
    rw [Tgrid_getD Tmin Tmax n (i + 1) hi, Tgrid_getD Tmin Tmax n i (by omega),
      one_div_one_div, one_div_one_div]
    exact invPoint_succ_sub Tmin Tmax n i
  · intro x hx
    obtain ⟨i, hi, rfl⟩ := Tgrid_mem Tmin Tmax n x hx
    obtain ⟨hlo, hhi⟩ := invPoint_bounds Tmin Tmax n i h0 h1 hn hi
    have hp := invPoint_pos Tmin Tmax n i h0 h1 hn hi
    constructor
    · have := one_div_le_one_div_of_le hp hhi
      rwa [one_div_one_div] at this
    · have hu : 0 < 1 / Tmax := one_div_pos.mpr (h0.trans h1)
      have := one_div_le_one_div_of_le hu hlo
      rwa [one_div_one_div] at this
  · rw [Tgrid_getD Tmin Tmax n 0 (by omega), invPoint_zero, one_div_one_div]
  · rw [Tgrid_getD Tmin Tmax n (n - 1) (by omega),
      invPoint_last Tmin Tmax n hn, one_div_one_div]

/-- Witness for `tgrid_uniform_inverse_spec` at `Tmin = 300`, `Tmax = 600`,
`Tcount = 4`. -/
theorem tgrid_uniform_inverse_spec_witness :
    (Tgrid 300 600 4).length = 4 ∧
    1 / (Tgrid 300 600 4).getD 1 0 - 1 / (Tgrid 300 600 4).getD 0 0
      = (1 / 300 - 1 / 600) / ((4 : ℚ) - 1) :=
  ⟨(tgrid_uniform_inverse_spec 300 600 4 (by norm_num) (by norm_num) (by norm_num)).1,
   (tgrid_uniform_inverse_spec 300 600 4 (by norm_num) (by norm_num) (by norm_num)).2.1
     0 (by norm_num)⟩

/-- C10: with no explicit temperature list, the generated grid starts at
`Tmax`, ends at `Tmin`, and is strictly decreasing (lines 44-45): the
`linspace` in `1/T` is increasing, so the reciprocals decrease. -/
theorem tgrid_strictly_decreasing_spec (Tmin Tmax : ℚ) (n : ℕ)
    (h0 : 0 < Tmin) (h1 : Tmin < Tmax) (hn : 2 ≤ n) :
    (Tgrid Tmin Tmax n).getD 0 0 = Tmax ∧
    (Tgrid Tmin Tmax n).getD (n - 1) 0 = Tmin ∧
    (∀ i, i + 1 < n →
      (Tgrid Tmin Tmax n).getD (i + 1) 0 < (Tgrid Tmin Tmax n).getD i 0) := by
  refine ⟨?_, ?_, ?_⟩
  · rw [Tgrid_getD Tmin Tmax n 0 (by omega), invPoint_zero, one_div_one_div]
  · rw [Tgrid_getD Tmin Tmax n (n - 1) (by omega),
      invPoint_last Tmin Tmax n hn, one_div_one_div]
  · intro i hi
    rw [Tgrid_getD Tmin Tmax n (i + 1) hi, Tgrid_getD Tmin Tmax n i (by omega)]
    exact one_div_lt_one_div_of_lt (invPoint_pos Tmin Tmax n i h0 h1 hn (by omega))
      (invPoint_succ_lt Tmin Tmax n i h0 h1 hn)

/-- Witness for `tgrid_strictly_decreasing_spec` at `Tmin = 250`,
`Tmax = 1000`, `Tcount = 5`. -/
theorem tgrid_strictly_decreasing_spec_witness :
    (Tgrid 250 1000 5).getD 0 0 = 1000 ∧
    (Tgrid 250 1000 5).getD 4 0 = 250 ∧
    (Tgrid 250 1000 5).getD 1 0 < (Tgrid 250 1000 5).getD 0 0 := by
  obtain ⟨a, b, c⟩ :=
    tgrid_strictly_decreasing_spec 250 1000 5 (by norm_num) (by norm_num) (by norm_num)
  exact ⟨a, b, c 0 (by norm_num)⟩

/-- C3: with no explicit temperature list, a requested `Tcount` below 4
(including the default 0) is replaced by 50, and a requested `Tcount ≥ 4`
is used as given (line 36). -/
theorem tcount_floor_spec (t : ℤ) :
    (t < 4 → effTcount t = 50) ∧ (4 ≤ t → effTcount t = t) := by
  constructor <;> intro h <;> simp only [effTcount] <;> split <;> omega

/-- Witness for `tcount_floor_spec` at the concrete counts 2 and 50. -/
theorem tcount_floor_spec_witness : effTcount 2 = 50 ∧ effTcount 50 = 50 :=
  ⟨(tcount_floor_spec 2).1 (by decide), (tcount_floor_spec 50).2 (by decide)⟩

theorem getD_map_of_lt {α β : Type} (f : α → β) (l : List α) (i : ℕ) (d : β) (e : α)
    (hi : i < l.length) : (l.map f).getD i d = f (l.getD i e) := by
  rw [List.getD_eq_getElem?_getD, List.getElem?_map, List.getD_eq_getElem?_getD,
    List.getElem?_eq_getElem hi]
  simp

theorem k_units_map_eq_none (n : ℕ) (h : ¬(n = 1 ∨ n = 2 ∨ n = 3)) :
    k_units_map n = none := by
  push_neg at h
  obtain ⟨h1, h2, h3⟩ := h
  rcases n with _ | _ | _ | _ | m
  · rfl
  · exact absurd rfl h1
  · exact absurd rfl h2
  · exact absurd rfl h3
  · rfl

theorem K_eq_units_map_eq_none (d : ℤ)
    (h : ¬(d = 2 ∨ d = 1 ∨ d = 0 ∨ d = -1 ∨ d = -2)) : K_eq_units_map d = none := by
  push_neg at h
  obtain ⟨h2, h1, h0, hm1, hm2⟩ := h
  unfold K_eq_units_map
  rw [if_neg h2, if_neg h1, if_neg h0, if_neg hm1, if_neg hm2]

theorem sampleAt_kappa_eq_one (rate : TransitionState → ℚ → ℚ) (keqSI : ℚ → ℚ)
    (conv : ℚ) (n : ℕ) (ts : TransitionState) (T : ℚ)
    (hts : ts.tunneling = none) (hr : rate ts T ≠ 0) :
    (sampleAt rate keqSI ((1000000 : ℚ) ^ n) conv ts T).kappa = 1 := by
  have heta : ({ ts with tunneling := none } : TransitionState) = ts := by
    rw [← hts]
  simp only [sampleAt, heta]
  exact div_self (mul_ne_zero hr (pow_ne_zero n (by norm_num)))

/-- C5: on any successful run, every sample's `k0` and `k` are the oracle
TST rate (with the tunneling model nulled resp. restored) times the
unit-conversion factor `(10^6)^(order-1)` where `order` is the reactant
count (lines 141, 150, 153); and if the reactant count is outside
`{1, 2, 3}` while the tunneling model resolves, the run fails with the
molecularity `KeyError` of the `k_units` lookup (line 130). -/
theorem rate_factor_molecularity_spec (rate : TransitionState → ℚ → ℚ)
    (keqSI : ℚ → ℚ) (convOfUnits : String → ℚ) (rxn : Reaction) (Tlist : List ℚ) :
    (∀ res, generate_kinetics rate keqSI convOfUnits rxn Tlist = Except.ok res →
      ∀ i, i < Tlist.length →
        (res.samples.getD i ⟨0, 0, 0, 0⟩).k0
          = rate { rxn.transition_state with tunneling := none } (Tlist.getD i 0)
            * (1000000 : ℚ) ^ (rxn.reactants.length - 1) ∧
        (res.samples.getD i ⟨0, 0, 0, 0⟩).k
          = rate { rxn.transition_state with tunneling := res.tunneling } (Tlist.getD i 0)
            * (1000000 : ℚ) ^ (rxn.reactants.length - 1)) ∧
    (∀ tun, resolveTunneling rxn = Except.ok tun →
      ¬(rxn.reactants.length = 1 ∨ rxn.reactants.length = 2 ∨ rxn.reactants.length = 3) →
      generate_kinetics rate keqSI convOfUnits rxn Tlist
        = Except.error KineticsError.unsupportedMolecularity) := by
  constructor
  · intro res h i hi
    obtain ⟨-, -, -, -, -, hsamp⟩ :=
      generate_kinetics_ok_inv rate keqSI convOfUnits rxn Tlist res h
    rw [hsamp, getD_map_of_lt _ Tlist i _ 0 hi]
    exact ⟨rfl, rfl⟩
  · intro tun h1 hmem
    exact generate_kinetics_reac_molecularity_error rate keqSI convOfUnits rxn Tlist
      tun h1 (k_units_map_eq_none rxn.reactants.length hmem)

/-- The example run evaluates to the example result. -/
theorem exRes_eq : generate_kinetics exRate exKeqSI exConv exRxn1 [300]
    = Except.ok exRes := by
  rw [generate_kinetics_eq_ok exRate exKeqSI exConv exRxn1 [300] none
    "s^-1" "       " "s^-1" rfl rfl rfl rfl]
  norm_num [sampleAt, exRes, exRate, exKeqSI, exConv, exRxn1, exTS, keq_unit_converter]

/-- Witness for `rate_factor_molecularity_spec`: the successful run on the
unimolecular example reaction (factor `(10^6)^0 = 1`), and the failing run
on the four-reactant example reaction. -/
theorem rate_factor_molecularity_spec_witness :
    ((exRes.samples.getD 0 ⟨0, 0, 0, 0⟩).k0
        = exRate { exRxn1.transition_state with tunneling := none } ([(300 : ℚ)].getD 0 0)
          * (1000000 : ℚ) ^ (exRxn1.reactants.length - 1) ∧
      (exRes.samples.getD 0 ⟨0, 0, 0, 0⟩).k
        = exRate { exRxn1.transition_state with tunneling := exRes.tunneling }
            ([(300 : ℚ)].getD 0 0)
          * (1000000 : ℚ) ^ (exRxn1.reactants.length - 1)) ∧
    generate_kinetics exRate exKeqSI exConv exRxn4 [300]
      = Except.error KineticsError.unsupportedMolecularity :=
  ⟨(rate_factor_molecularity_spec exRate exKeqSI exConv exRxn1 [300]).1 exRes exRes_eq
      0 (by decide),
   (rate_factor_molecularity_spec exRate exKeqSI exConv exRxn4 [300]).2 none rfl
      (by decide)⟩

/-- C6: the equilibrium-constant unit lookup maps the net molecularity
changes `2, 1, 0, -1, -2` to their five distinct unit tags, the blank tag
of `Δ = 0` gets conversion factor exactly 1 (lines 131-139), and any `Δ`
outside `{-2, ..., 2}` makes the run fail with the stoichiometry
`KeyError` of the lookup (lines 131-132). -/
theorem keq_units_stoichiometry_spec :
    (K_eq_units_map 2 = some "mol^2/cm^6" ∧ K_eq_units_map 1 = some "mol/cm^3" ∧
     K_eq_units_map 0 = some "       " ∧ K_eq_units_map (-1) = some "cm^3/mol" ∧
     K_eq_units_map (-2) = some "cm^6/mol^2") ∧
    List.Pairwise (fun a b => a ≠ b)
      ["mol^2/cm^6", "mol/cm^3", "       ", "cm^3/mol", "cm^6/mol^2"] ∧
    (∀ convOfUnits, keq_unit_converter convOfUnits "       " = 1) ∧
    (∀ d : ℤ, ¬(d = 2 ∨ d = 1 ∨ d = 0 ∨ d = -1 ∨ d = -2) → K_eq_units_map d = none) ∧
    (∀ (rate : TransitionState → ℚ → ℚ) (keqSI : ℚ → ℚ) (convOfUnits : String → ℚ)
      (rxn : Reaction) (Tlist : List ℚ) (tun : Option TunnelingModel) (ku : String),
      resolveTunneling rxn = Except.ok tun →
      k_units_map rxn.reactants.length = some ku →
      ¬((rxn.products.length : ℤ) - (rxn.reactants.length : ℤ) = 2 ∨
        (rxn.products.length : ℤ) - (rxn.reactants.length : ℤ) = 1 ∨
        (rxn.products.length : ℤ) - (rxn.reactants.length : ℤ) = 0 ∨
        (rxn.products.length : ℤ) - (rxn.reactants.length : ℤ) = -1 ∨
        (rxn.products.length : ℤ) - (rxn.reactants.length : ℤ) = -2) →
      generate_kinetics rate keqSI convOfUnits rxn Tlist
        = Except.error KineticsError.unsupportedStoichiometry) := by
  refine ⟨by decide, by decide, ?_, K_eq_units_map_eq_none, ?_⟩
  · intro convOfUnits
    simp [keq_unit_converter]
  · intro rate keqSI convOfUnits rxn Tlist tun ku h1 h2 hmem
    exact generate_kinetics_stoichiometry_error rate keqSI convOfUnits rxn Tlist
      tun ku h1 h2 (K_eq_units_map_eq_none _ hmem)

/-- Witness for `keq_units_stoichiometry_spec`: the lookup rejects `Δ = 5`,
and the run on the example reaction with `Δ = 3` fails. -/
theorem keq_units_stoichiometry_spec_witness :
    K_eq_units_map 5 = none ∧
    generate_kinetics exRate exKeqSI exConv exRxnD3 [300]
      = Except.error KineticsError.unsupportedStoichiometry :=
  ⟨keq_units_stoichiometry_spec.2.2.2.1 5 (by decide),
   keq_units_stoichiometry_spec.2.2.2.2 exRate exKeqSI exConv exRxnD3 [300] none
     "s^-1" rfl rfl (by decide)⟩

/-- C7: when the reaction's tunneling model is `None`, both rate
evaluations of an iteration see the same transition state, so every
sample's `kappa = k / k0` is exactly 1 (lines 147-155), provided the
deterministic rate oracle is nonzero at the sampled temperatures. -/
theorem kappa_one_spec (rate : TransitionState → ℚ → ℚ) (keqSI : ℚ → ℚ)
    (convOfUnits : String → ℚ) (rxn : Reaction) (Tlist : List ℚ) (res : KineticsResult)
    (hnone : rxn.transition_state.tunneling = none)
    (h : generate_kinetics rate keqSI convOfUnits rxn Tlist = Except.ok res)
    (hrate : ∀ T ∈ Tlist, rate rxn.transition_state T ≠ 0) :
    ∀ s ∈ res.samples, s.kappa = 1 := by
  obtain ⟨h1, -, -, -, -, hsamp⟩ :=
    generate_kinetics_ok_inv rate keqSI convOfUnits rxn Tlist res h
  have htun : res.tunneling = none := by
    unfold resolveTunneling at h1
    rw [hnone] at h1
    exact (Except.ok.inj h1).symm
  intro s hs
  rw [hsamp] at hs
  obtain ⟨T, hT, rfl⟩ := List.mem_map.mp hs
  rw [htun]
  have hts : ({ rxn.transition_state with tunneling := none } : TransitionState)
      = rxn.transition_state := by
    rw [← hnone]
  rw [hts]
  exact sampleAt_kappa_eq_one rate keqSI _ _ rxn.transition_state T hnone (hrate T hT)

/-- Witness for `kappa_one_spec`: the sample produced by the tunneling-free
example run has `kappa = 1`. -/
theorem kappa_one_spec_witness : (RateSample.mk 2 2 1 5).kappa = 1 :=
  kappa_one_spec exRate exKeqSI exConv exRxn1 [300] exRes rfl exRes_eq (by decide)
    (RateSample.mk 2 2 1 5) (by decide)

/-- C8: an Eckart tunneling model with missing frequency is filled from
the transition state's frequency, and its three zero-point energies from
the summed reactant `E0`s, the transition state's `E0`, and the summed
product `E0`s, each converted from J/mol to kJ/mol (lines 115-121). -/
theorem eckart_fill_spec (rxn : Reaction) (e1 e2 e3 : Option ℚ)
    (h : rxn.transition_state.tunneling = some (TunnelingModel.eckart none e1 e2 e3)) :
    resolveTunneling rxn = Except.ok (some (TunnelingModel.eckart
      (some rxn.transition_state.frequency)
      (some ((rxn.reactants.map (fun r => r.conformer.E0)).sum / 1000))
      (some (rxn.transition_state.conformer.E0 / 1000))
      (some ((rxn.products.map (fun p => p.conformer.E0)).sum / 1000)))) := by
  unfold resolveTunneling
  rw [h]
  norm_num [mul_one_div]

/-- Witness for `eckart_fill_spec` on the Eckart example reaction:
reactant energies `4000 + 4000` J/mol become 8 kJ/mol, the transition
state's `9000` J/mol becomes 9 kJ/mol, the product's `4000` J/mol becomes
4 kJ/mol, and the frequency is the transition state's `1500`. -/
theorem eckart_fill_spec_witness :
    resolveTunneling exRxnEck = Except.ok (some (TunnelingModel.eckart
      (some 1500) (some 8) (some 9) (some 4))) := by
  rw [eckart_fill_spec exRxnEck none none none rfl]
  norm_num [exRxnEck, exTSEck, exSpecies]

/-- C9: the per-iteration disabling of the tunneling model is transient:
after a successful run the transition state's tunneling field equals the
resolved model, its other fields are unchanged, and every sample's `k` was
computed against the restored (full) transition state (lines 147-156). -/
theorem transient_tunneling_restore_spec (rate : TransitionState → ℚ → ℚ)
    (keqSI : ℚ → ℚ) (convOfUnits : String → ℚ) (rxn : Reaction) (Tlist : List ℚ)
    (res : KineticsResult)
    (h : generate_kinetics rate keqSI convOfUnits rxn Tlist = Except.ok res) :
    res.ts.tunneling = res.tunneling ∧
    res.ts.frequency = rxn.transition_state.frequency ∧
    res.ts.conformer = rxn.transition_state.conformer ∧
    (∀ i, i < Tlist.length →
      (res.samples.getD i ⟨0, 0, 0, 0⟩).k
        = rate res.ts (Tlist.getD i 0)
          * (1000000 : ℚ) ^ (rxn.reactants.length - 1)) := by
  obtain ⟨-, -, -, -, hts, hsamp⟩ :=
    generate_kinetics_ok_inv rate keqSI convOfUnits rxn Tlist res h
  rw [hts]
  refine ⟨rfl, rfl, rfl, ?_⟩
  intro i hi
  rw [hsamp, getD_map_of_lt _ Tlist i _ 0 hi]
  rfl

/-- Witness for `transient_tunneling_restore_spec` on the example run. -/
theorem transient_tunneling_restore_spec_witness :
    exRes.ts.tunneling = exRes.tunneling ∧
    (exRes.samples.getD 0 ⟨0, 0, 0, 0⟩).k
      = exRate exRes.ts ([(300 : ℚ)].getD 0 0)
        * (1000000 : ℚ) ^ (exRxn1.reactants.length - 1) :=
  ⟨(transient_tunneling_restore_spec exRate exKeqSI exConv exRxn1 [300] exRes exRes_eq).1,
   (transient_tunneling_restore_spec exRate exKeqSI exConv exRxn1 [300] exRes
      exRes_eq).2.2.2 0 (by decide)⟩

/-- C1: evaluation of the reverse-rate computation at the concrete input
`t_list = [1000, 500]`, `k0_list = [5, 7]`, `k_list = [2, 3]`,
`Keq_list = [1, 1]`: because the loop indexes with the stale variable `i`
(the last index of the earlier printing loop) instead of its own index
`n`, every row repeats the last forward sample, so with `Keq` constant 1
the first reverse row is `(7, 3)` and not the index-aligned `(5, 2)`. -/
theorem reverse_samples_stale_index_bug :
    reverse_rate_samples [1000, 500] [5, 7] [2, 3] [1, 1] = ([7, 7], [3, 3]) ∧
    ¬((reverse_rate_samples [1000, 500] [5, 7] [2, 3] [1, 1]).1 = [5, 7] ∧
      (reverse_rate_samples [1000, 500] [5, 7] [2, 3] [1, 1]).2 = [2, 3]) := by
  constructor
  · norm_num [reverse_rate_samples, List.getD]
  · norm_num [reverse_rate_samples, List.getD]

/-- C2 (amended): the reverse-rate derivation of `write_output` performs
no domain check on `Keq` and has no exception path: for every input,
including lists whose `Keq` entries are zero or negative, it returns
normally and both reverse Arrhenius fits are invoked (lines 197-214). -/
theorem reverse_derivation_never_fails (fit : List ℚ → List ℚ → ℚ)
    (t_list k0_list k_list Keq_list : List ℚ) :
    ∃ x, write_output_reverse fit t_list k0_list k_list Keq_list = Except.ok x :=
  ⟨_, rfl⟩

/-- Counterexample to C2 as stated: with `Keq = 0` at every sampled
temperature the derivation does not fail; it returns successfully with
both fits applied (the Python divides by zero, which NumPy turns into
`inf` with a warning, and proceeds to fit). -/
theorem keq_zero_no_error_counterexample :
    (0 : ℚ) ∈ [(0 : ℚ), 0] ∧
    write_output_reverse (fun _ _ => 0) [300, 400] [1, 1] [2, 2] [0, 0]
      = Except.ok (0, 0) :=
  ⟨by decide, rfl⟩
